import Mathlib

/-!
Verification development for the PNANY Fall 2025 evaluation / post-test /
certificate application (`app.py`, plus `supabase_client.py`,
`test_supabase.py`).

The application is a single linear submit flow: collect identity fields,
collect evaluation answers and a multiple-choice post-test, validate,
score by exact string comparison against an answer key, branch on a
passing threshold, persist a flat Submission Record to row stores
(local CSV plus Google-Sheets tabs), and, on pass, generate a PDF
certificate and append a Certificate Record.

This file gives a shallow embedding of that flow.  Numeric score values
(Python floats) are modelled as exact rationals; UI rendering, PDF byte
output and the actual network/file writes are modelled as an explicit
trace of writer invocations and user-visible messages.  Python's
`datetime.now()` and `os.urandom`-backed `uuid.uuid4()` are modelled by
explicit parameters (`now`, the 128-bit random draw `r`).
-/

namespace PnanyCert

set_option maxRecDepth 4000

/-- A quiz item, as loaded from `questions.json`:
`{question: string, options: list of string, answer: string}`. -/
structure QuizItem where
  question : String
  options : List String
  answer : String
deriving DecidableEq

/-- The participant's post-test selections, one per quiz item in order:
`answers[str(i)]` is the `st.radio` value for question `i`, which is
`None` until the participant selects an option.  (`app.py` lines
291-297 populate exactly one dict entry per quiz item.) -/
abbrev AnswerSet := List (Option String)

/-- `app.py` line 307:
`correct = sum(1 for i, q in enumerate(QUIZ, start=1) if answers[str(i)] == q["answer"])`.
A `None` selection never equals a string in Python, so the predicate is
"the selection is `some` of the item's answer string". -/
def countCorrect (quiz : List QuizItem) (answers : AnswerSet) : Nat :=
  (quiz.zip answers).countP (fun p => p.2 == some p.1.answer)

/-- `app.py` lines 307-309: the score triple
`(correct, total, score_pct)` with `total = len(QUIZ)` and
`score_pct = 100 * correct / total` (true division, modelled in ℚ). -/
def score (quiz : List QuizItem) (answers : AnswerSet) : Nat × Nat × ℚ :=
  let correct := countCorrect quiz answers
  let total := quiz.length
  (correct, total, 100 * (correct : ℚ) / (total : ℚ))

/-- `app.py` line 310: `passed = score_pct >= PASSING_SCORE`.
The threshold is an externally configured integer percentage
(`PASSING_SCORE = int(COURSE.get("passing_score", 75))`). -/
def passedDecision (passing_score : ℤ) (score_pct : ℚ) : Bool :=
  (passing_score : ℚ) ≤ score_pct

/-- Count of items whose selected option string is exactly equal to the
item's correct-option string, written the way the specification words
it: the number of question indices whose selection matches the key at
that index.  Used to compare the code's `countCorrect` against the
spec's description. -/
def countCorrectSpec (key : List String) (sel : List String) : Nat :=
  ((List.range key.length).filter
    (fun i => sel.getD i "" = key.getD i "")).length

theorem filter_range_succ_getD (p : Nat → Bool) (n : Nat) :
    ((List.range (n + 1)).filter p).length =
      (if p 0 then 1 else 0) + ((List.range n).filter (fun i => p (i + 1))).length := by
  rw [List.range_succ_eq_map, List.filter_cons, List.filter_map]
  have hmap : List.filter (p ∘ Nat.succ) (List.range n) =
      List.filter (fun i => p (i + 1)) (List.range n) :=
    List.filter_congr (by intro i _; rfl)
  rw [hmap]
  cases h0 : p 0
  all_goals simp
  all_goals omega

theorem countCorrect_fully_populated (quiz : List QuizItem) (sel : List String)
    (hlen : sel.length = quiz.length) :
    countCorrect quiz (sel.map some) =
      countCorrectSpec (quiz.map QuizItem.answer) sel := by
  induction quiz generalizing sel with
  | nil =>
    simp [countCorrect, countCorrectSpec]
  | cons q qs ih =>
    cases sel with
    | nil => simp at hlen
    | cons s ss =>
      have hss : ss.length = qs.length := by simpa using hlen
      have hrec := ih ss hss
      simp only [countCorrect, countCorrectSpec] at hrec ⊢
      simp only [List.map_cons, List.zip_cons_cons, List.countP_cons, List.length_cons,
        List.length_map]
      rw [filter_range_succ_getD]
      simp only [List.getD_cons_zero, List.getD_cons_succ]
      simp only [List.length_map] at hrec
      rw [hrec]
      by_cases hmatch : s = q.answer
      · simp [hmatch, Nat.add_comm]
      · simp [hmatch]

/-- Fixed-width lowercase hexadecimal digits of `n`, most significant
first: Python's `'%032x' % n` when `len = 32`.  Models the hex body of
`str(uuid.UUID(...))`. -/
def toHexFixed : Nat → Nat → List Char
  | _, 0 => []
  | n, len + 1 => toHexFixed (n / 16) len ++ [Nat.digitChar (n % 16)]

/-- `uuid.uuid4()` builds a `UUID` from 16 random bytes (the 128-bit
value `r`), then forces the RFC 4122 variant bits
(`int &= ~(0xc000 << 48); int |= 0x8000 << 48`) and the version nibble
(`int &= ~(0xf000 << 64); int |= 4 << 76`). -/
def uuid4val (r : Nat) : Nat :=
  let n0 := r % 2 ^ 128
  let n1 := (n0 &&& (2 ^ 128 - 1 - (0xc000 <<< 48))) ||| (0x8000 <<< 48)
  (n1 &&& (2 ^ 128 - 1 - (0xf000 <<< 64))) ||| (4 <<< 76)

/-- The canonical 8-4-4-4-12 dash grouping of the 32 hex digits of a
UUID. -/
def uuidGroup (h : List Char) : List Char :=
  h.take 8 ++ '-' :: (h.drop 8).take 4 ++ '-' :: (h.drop 12).take 4
    ++ '-' :: (h.drop 16).take 4 ++ '-' :: h.drop 20

/-- `str(uuid.uuid4())` (`app.py` line 334): the 32 hex digits of the
UUID value in the canonical 8-4-4-4-12 dash grouping. -/
def uuid4str (r : Nat) : String :=
  String.mk (uuidGroup (toHexFixed (uuid4val r) 32))

/-- Numeric value of a lowercase hex digit character (decoder used only
to prove the uuid rendering injective). -/
def hexCharVal (c : Char) : Nat :=
  if c = '0' then 0 else if c = '1' then 1 else if c = '2' then 2 else
  if c = '3' then 3 else if c = '4' then 4 else if c = '5' then 5 else
  if c = '6' then 6 else if c = '7' then 7 else if c = '8' then 8 else
  if c = '9' then 9 else if c = 'a' then 10 else if c = 'b' then 11 else
  if c = 'c' then 12 else if c = 'd' then 13 else if c = 'e' then 14 else
  if c = 'f' then 15 else 0

/-- Big-endian value of a list of hex digit characters. -/
def hexListVal (l : List Char) : Nat :=
  l.foldl (fun a c => 16 * a + hexCharVal c) 0

/-- Parse a dash-grouped hex string back to its numeric value. -/
def uuidDecode (s : String) : Nat :=
  hexListVal (s.toList.filter (fun c => c ≠ '-'))

theorem hexCharVal_digitChar : ∀ d < 16, hexCharVal (Nat.digitChar d) = d := by
  decide

theorem digitChar_ne_dash : ∀ d < 16, Nat.digitChar d ≠ '-' := by
  decide

theorem hexListVal_aux (l : List Char) (a : Nat) :
    l.foldl (fun a c => 16 * a + hexCharVal c) a =
      a * 16 ^ l.length + hexListVal l := by
  induction l generalizing a with
  | nil => simp [hexListVal]
  | cons c cs ih =>
    simp only [List.foldl_cons, List.length_cons, hexListVal]
    rw [ih, ih (16 * 0 + hexCharVal c)]
    ring

theorem hexListVal_append_singleton (l : List Char) (c : Char) :
    hexListVal (l ++ [c]) = 16 * hexListVal l + hexCharVal c := by
  simp [hexListVal, List.foldl_append]

theorem hexListVal_toHexFixed : ∀ (len n : Nat), n < 16 ^ len →
    hexListVal (toHexFixed n len) = n := by
  intro len
  induction len with
  | zero =>
    intro n hn
    interval_cases n
    simp [toHexFixed, hexListVal]
  | succ len ih =>
    intro n hn
    have hdiv : n / 16 < 16 ^ len := by
      rw [Nat.div_lt_iff_lt_mul (by norm_num)]
      calc n < 16 ^ (len + 1) := hn
        _ = 16 ^ len * 16 := by ring
    rw [toHexFixed, hexListVal_append_singleton, ih _ hdiv,
      hexCharVal_digitChar _ (Nat.mod_lt _ (by norm_num))]
    omega

theorem toHexFixed_ne_dash : ∀ (len n : Nat), ∀ c ∈ toHexFixed n len, c ≠ '-' := by
  intro len
  induction len with
  | zero => intro n c hc; simp [toHexFixed] at hc
  | succ len ih =>
    intro n c hc
    rw [toHexFixed] at hc
    rcases List.mem_append.mp hc with h | h
    · exact ih _ c h
    · rcases List.mem_singleton.mp h with rfl
      exact digitChar_ne_dash _ (Nat.mod_lt _ (by norm_num))

theorem uuid4val_lt (r : Nat) : uuid4val r < 2 ^ 128 := by
  unfold uuid4val
  have h1 : (0x8000 : Nat) <<< 48 < 2 ^ 128 := by
    rw [Nat.shiftLeft_eq]; norm_num
  have h2 : (4 : Nat) <<< 76 < 2 ^ 128 := by
    rw [Nat.shiftLeft_eq]; norm_num
  exact Nat.or_lt_two_pow
    (Nat.lt_of_le_of_lt Nat.and_le_left
      (Nat.or_lt_two_pow
        (Nat.lt_of_le_of_lt Nat.and_le_left (Nat.mod_lt _ (by norm_num))) h1)) h2

theorem filter_cons_dash (l : List Char) :
    ('-' :: l).filter (fun c => c ≠ '-') = l.filter (fun c => c ≠ '-') := by
  simp

theorem filter_of_no_dash (l : List Char) (hl : ∀ c ∈ l, c ≠ '-') :
    l.filter (fun c => c ≠ '-') = l := by
  apply List.filter_eq_self.mpr
  intro c hc
  simpa using hl c hc

theorem uuidGroup_filter (h : List Char) (hchars : ∀ c ∈ h, c ≠ '-') :
    (uuidGroup h).filter (fun c => c ≠ '-') = h := by
  unfold uuidGroup
  rw [List.filter_append, List.filter_append, List.filter_append, List.filter_append,
    filter_cons_dash, filter_cons_dash, filter_cons_dash, filter_cons_dash,
    filter_of_no_dash _ (fun c hc => hchars c (List.mem_of_mem_take hc)),
    filter_of_no_dash _ (fun c hc => hchars c (List.mem_of_mem_drop (List.mem_of_mem_take hc))),
    filter_of_no_dash _ (fun c hc => hchars c (List.mem_of_mem_drop (List.mem_of_mem_take hc))),
    filter_of_no_dash _ (fun c hc => hchars c (List.mem_of_mem_drop (List.mem_of_mem_take hc))),
    filter_of_no_dash _ (fun c hc => hchars c (List.mem_of_mem_drop hc))]
  have e1 : (h.drop 16).take 4 ++ h.drop 20 = h.drop 16 := by
    have hd : h.drop 20 = (h.drop 16).drop 4 := by rw [List.drop_drop]
    rw [hd, List.take_append_drop]
  have e2 : (h.drop 12).take 4 ++ h.drop 16 = h.drop 12 := by
    have hd : h.drop 16 = (h.drop 12).drop 4 := by rw [List.drop_drop]
    rw [hd, List.take_append_drop]
  have e3 : (h.drop 8).take 4 ++ h.drop 12 = h.drop 8 := by
    have hd : h.drop 12 = (h.drop 8).drop 4 := by rw [List.drop_drop]
    rw [hd, List.take_append_drop]
  simp only [List.append_assoc]
  rw [e1, e2, e3, List.take_append_drop]

theorem uuidDecode_uuid4str (r : Nat) : uuidDecode (uuid4str r) = uuid4val r := by
  have hlt : uuid4val r < 16 ^ 32 := by
    have h128 : (2 : Nat) ^ 128 = 16 ^ 32 := by norm_num
    exact h128 ▸ uuid4val_lt r
  have hlist : (uuid4str r).toList = uuidGroup (toHexFixed (uuid4val r) 32) := rfl
  unfold uuidDecode
  rw [hlist, uuidGroup_filter _ (toHexFixed_ne_dash 32 (uuid4val r)),
    hexListVal_toHexFixed 32 (uuid4val r) hlt]

/-- Distinct UUID values render to distinct identifier strings. -/
theorem uuid4str_injective {r1 r2 : Nat} (h : uuid4val r1 ≠ uuid4val r2) :
    uuid4str r1 ≠ uuid4str r2 := by
  intro hs
  exact h (by rw [← uuidDecode_uuid4str r1, ← uuidDecode_uuid4str r2, hs])

/-- Course settings loaded from `st.secrets` (`app.py` lines 29-34).
`credit_hours` is a float and `passing_score` an int. -/
structure Config where
  course_title : String
  course_date : String
  credit_hours : ℚ
  passing_score : ℤ
deriving DecidableEq

/-- The fallback values hard-coded in `app.py` lines 30-34
(4.75 = 19/4 is exactly representable). -/
def defaultConfig : Config where
  course_title := "Lead to INSPIRE Fall Conference 2025 — Gabay at Galing: Empowering the New Generation of Nurse Leaders"
  course_date := "October 18, 2025"
  credit_hours := 19 / 4
  passing_score := 75

/-- `LIKERT_MAP` (`app.py` line 220); `dict.get(x, "")` yields the int
or the empty string, modelled as `Option Nat` (`none` = `""`). -/
def LIKERT_MAP (s : String) : Option Nat :=
  if s = "Strongly agree" then some 5
  else if s = "Agree" then some 4
  else if s = "Undecided" then some 3
  else if s = "Disagree" then some 2
  else if s = "Strongly disagree" then some 1
  else none

/-- `BOOL = lambda b: "Yes" if bool(b) else "No"` (`app.py` line 221). -/
def BOOL (b : Bool) : String := if b then "Yes" else "No"

/-- Round a rational to the nearest integer, ties to even: the rounding
Python's `format(x, '.0f')` applies to the (here exactly modelled)
float value. -/
def roundHalfEven (q : ℚ) : ℤ :=
  let n := ⌊q⌋
  if q - (n : ℚ) < 1 / 2 then n
  else if (1 : ℚ) / 2 < q - (n : ℚ) then n + 1
  else if n % 2 = 0 then n else n + 1

/-- Python `f"{x:.0f}"`: nearest integer (ties to even), no decimals. -/
def fmtFixed0 (q : ℚ) : String := toString (roundHalfEven q)

/-- Every widget value the submit handler reads (`app.py` lines
171-297): identity form, evaluation answers and the post-test
selections.  These are the submit handler's free inputs. -/
structure FormInputs where
  full_name : String
  email : String
  job_title : String
  institution_name : String
  location_city : String
  location_state : String
  location_country : String
  role : String
  member_status : String
  contact_opt_in : Bool
  attendance : Bool
  ev_org : String
  ev_ad : String
  ev_rel : String
  ev_virt : String
  ev_obj : String
  overall_prog : String
  overall_rec : String
  overall_zoom : String
  lo_met : String
  speaker_yap : String
  speaker_sagar : String
  speaker_velasquez : String
  speaker_pastoral : String
  speaker_santarina : String
  speaker_planillo : String
  speaker_florendo : String
  speaker_jomoc : String
  speaker_oliverio : String
  speaker_temprosa : String
  speaker_bedona : String
  speaker_agcon : String
  imp_knowledge : Bool
  imp_skills : Bool
  imp_competence : Bool
  imp_performance : Bool
  imp_outcomes : Bool
  fair_balanced : String
  commercial_support : String
  commercial_bias : String
  bias_explain : String
  pc_values : Bool
  pc_joy : Bool
  pc_health : Bool
  pc_other : String
  beneficial_topic : String
  topics_interest : String
  comments : String
  answers : AnswerSet
deriving DecidableEq

/-- The Submission Record (`row`, `app.py` lines 337-423): one flat
mapping per completed submission.  Field names and order follow the
code; values keep their Python types (ints as `Nat`, the `passed` bool
as `Bool`, `LIKERT_MAP.get(..., "")` as `Option Nat`, everything else
strings). -/
structure Row where
  timestamp : String
  full_name : String
  email : String
  role : String
  job_title : String
  institution_name : String
  attendance : String
  location_city : String
  location_state : String
  location_country : String
  member_status : String
  contact_opt_in : String
  ev_org : String
  ev_ad : String
  ev_rel : String
  ev_virt : String
  ev_obj : String
  lo_met : String
  ev_org_num : Option Nat
  ev_ad_num : Option Nat
  ev_rel_num : Option Nat
  ev_virt_num : Option Nat
  ev_obj_num : Option Nat
  overall_prog : String
  overall_rec : String
  overall_zoom : String
  beneficial_topic : String
  topics_interest : String
  comments : String
  quiz_score : Nat
  quiz_total : Nat
  quiz_pct : String
  quiz_passed : String
  score_pct : String
  passed : Bool
  cert_id : String
  speaker_yap : String
  speaker_sagar : String
  speaker_velasquez : String
  speaker_pastoral : String
  speaker_santarina : String
  speaker_planillo : String
  speaker_florendo : String
  speaker_jomoc : String
  speaker_oliverio : String
  speaker_temprosa : String
  speaker_bedona : String
  speaker_agcon : String
  improve_knowledge : String
  improve_skills : String
  improve_competence : String
  improve_performance : String
  improve_outcomes : String
  fair_balanced : String
  commercial_support : String
  commercial_bias : String
  bias_explain : String
  pc_values : String
  pc_joy : String
  pc_health : String
  pc_other : String
deriving DecidableEq

/-- The Certificate Record (`cert_row`, `app.py` lines 444-451). -/
structure CertRow where
  cert_id : String
  name : String
  email : String
  course_title : String
  course_date : String
  credit_hours : ℚ
deriving DecidableEq

/-- `row = {...}` plus the two `row.update({...})` calls (`app.py`
lines 337-423), evaluated after the score computation. -/
def buildRow (now : String) (inp : FormInputs) (correct total : Nat)
    (score_pct : ℚ) (passed : Bool) (cert_id : String) : Row where
  timestamp := now
  full_name := inp.full_name
  email := inp.email
  role := inp.role
  job_title := inp.job_title
  institution_name := inp.institution_name
  attendance := if inp.attendance then "Yes" else "No"
  location_city := inp.location_city
  location_state := inp.location_state
  location_country := inp.location_country
  member_status := inp.member_status
  contact_opt_in := BOOL inp.contact_opt_in
  ev_org := inp.ev_org
  ev_ad := inp.ev_ad
  ev_rel := inp.ev_rel
  ev_virt := inp.ev_virt
  ev_obj := inp.ev_obj
  lo_met := inp.lo_met
  ev_org_num := LIKERT_MAP inp.ev_org
  ev_ad_num := LIKERT_MAP inp.ev_ad
  ev_rel_num := LIKERT_MAP inp.ev_rel
  ev_virt_num := LIKERT_MAP inp.ev_virt
  ev_obj_num := LIKERT_MAP inp.ev_obj
  overall_prog := inp.overall_prog
  overall_rec := inp.overall_rec
  overall_zoom := inp.overall_zoom
  beneficial_topic := inp.beneficial_topic
  topics_interest := inp.topics_interest.replace "\n" " "
  comments := inp.comments.replace "\n" " "
  quiz_score := correct
  quiz_total := total
  quiz_pct := fmtFixed0 score_pct
  quiz_passed := BOOL passed
  score_pct := fmtFixed0 score_pct
  passed := passed
  cert_id := cert_id
  speaker_yap := inp.speaker_yap
  speaker_sagar := inp.speaker_sagar
  speaker_velasquez := inp.speaker_velasquez
  speaker_pastoral := inp.speaker_pastoral
  speaker_santarina := inp.speaker_santarina
  speaker_planillo := inp.speaker_planillo
  speaker_florendo := inp.speaker_florendo
  speaker_jomoc := inp.speaker_jomoc
  speaker_oliverio := inp.speaker_oliverio
  speaker_temprosa := inp.speaker_temprosa
  speaker_bedona := inp.speaker_bedona
  speaker_agcon := inp.speaker_agcon
  improve_knowledge := BOOL inp.imp_knowledge
  improve_skills := BOOL inp.imp_skills
  improve_competence := BOOL inp.imp_competence
  improve_performance := BOOL inp.imp_performance
  improve_outcomes := BOOL inp.imp_outcomes
  fair_balanced := inp.fair_balanced
  commercial_support := inp.commercial_support
  commercial_bias := inp.commercial_bias
  bias_explain := inp.bias_explain
  pc_values := BOOL inp.pc_values
  pc_joy := BOOL inp.pc_joy
  pc_health := BOOL inp.pc_health
  pc_other := inp.pc_other

/-- `save_eval_to_sheets` (`app.py` lines 92-98): re-normalizes the two
multi-line fields before the sheets append.  (The `payload_json`
snapshot key it also adds is a serialization of this same record and
carries no further information.) -/
def evalEnrich (row : Row) : Row :=
  { row with
    topics_interest := row.topics_interest.replace "\n" " "
    comments := row.comments.replace "\n" " " }

/-- Fault injection for the three row-store writers: whether the call
raises (`save_row_to_csv`, `save_eval_to_sheets`,
`save_cert_to_sheets`). -/
structure Faults where
  csv : Bool
  evalSheet : Bool
  certSheet : Bool
deriving DecidableEq

/-- Observable steps of the submit handler, in program order: writer
invocations (each carries the record handed to the writer) and the
user-visible messages / offers rendered around them. -/
inductive Event where
  | csvWriteCall (path : String) (row : Row)
  | evalSheetCall (row : Row)
  | evalSheetSavedMsg
  | evalSheetErrMsg
  | notPassedMsg
  | pdfGenerated (full_name : String) (email : String) (score_pct : ℚ) (cert_id : String)
  | certSheetCall (cert : CertRow) (created_at : String)
  | certSheetWarnMsg
  | passedMsg
  | downloadOffered (file_name : String)
deriving DecidableEq

/-- How a submit attempt ends.  `identityInvalid`: the step-1 gate
(`app.py` lines 208-213) rejected the identity form, so the
evaluation/post-test section is never rendered and no submission
happens.  `quizIncomplete`: `st.error` + `st.stop()` at lines 302-304.
`crashed`: an unguarded writer raised and the script run aborted.
`failedStop`: the `st.stop()` of the fail branch (line 438).
`completed`: the pass branch ran to the download button. -/
inductive SubmitOutcome where
  | identityInvalid
  | quizIncomplete
  | crashed (events : List Event)
  | failedStop (events : List Event)
  | completed (events : List Event)
deriving DecidableEq

/-- Events that actually happened in an outcome; validation rejections
carry none (nothing is computed or written by them). -/
def SubmitOutcome.events : SubmitOutcome → List Event
  | .identityInvalid => []
  | .quizIncomplete => []
  | .crashed es => es
  | .failedStop es => es
  | .completed es => es

/-- `score_pct` of one session (`app.py` line 309):
`100 * correct / total` over the post-test selections. -/
def sessionPct (quiz : List QuizItem) (answers : AnswerSet) : ℚ :=
  100 * (countCorrect quiz answers : ℚ) / (quiz.length : ℚ)

/-- `passed` of one session (`app.py` line 310). -/
def sessionPassed (cfg : Config) (quiz : List QuizItem) (answers : AnswerSet) : Bool :=
  passedDecision cfg.passing_score (sessionPct quiz answers)

/-- The Submission Record of one session: `buildRow` applied to the
session's score fields, pass flag and generated `cert_id` (`app.py`
lines 307-310, 334, 337-423). -/
def submissionRow (cfg : Config) (quiz : List QuizItem) (now : String) (r : Nat)
    (inp : FormInputs) : Row :=
  buildRow now inp (countCorrect quiz inp.answers) quiz.length
    (sessionPct quiz inp.answers) (sessionPassed cfg quiz inp.answers) (uuid4str r)

/-- The Certificate Record of one session (`app.py` lines 444-451):
note it reuses the same `cert_id` as the Submission Record. -/
def sessionCertRow (cfg : Config) (inp : FormInputs) (r : Nat) : CertRow where
  cert_id := uuid4str r
  name := inp.full_name
  email := inp.email
  course_title := cfg.course_title
  course_date := cfg.course_date
  credit_hours := cfg.credit_hours

/-- One full session of the app (`app.py` lines 171-463): the step-1
identity gate (lines 208-213), the quiz completeness check (lines
302-304), the score computation (lines 307-310), record building,
persistence and the pass/fail branch.  `now` stands for
`datetime.now()`, `r` for the 128 random bits behind `uuid.uuid4()`,
and `faults` tells which writer calls raise.  `save_row_to_csv` (line
426) is not inside a `try`/`except`, so when it raises the script run
aborts; the two sheets writers are guarded (lines 429-433 and
452-455), turning their failures into an error / warning message. -/
def runSession (cfg : Config) (quiz : List QuizItem) (now : String) (r : Nat)
    (inp : FormInputs) (faults : Faults) : SubmitOutcome :=
  if inp.full_name = "" ∨ inp.email = "" ∨ inp.attendance = false then
    .identityInvalid
  else if inp.answers.any (fun a => a.isNone) then
    .quizIncomplete
  else
    let row := submissionRow cfg quiz now r inp
    let ev0 := [Event.csvWriteCall "data/submissions.csv" row]
    if faults.csv then .crashed ev0
    else
      let ev1 := ev0 ++ Event.evalSheetCall (evalEnrich row) ::
        (if faults.evalSheet then [Event.evalSheetErrMsg] else [Event.evalSheetSavedMsg])
      if sessionPassed cfg quiz inp.answers then
        .completed (ev1 ++
          Event.pdfGenerated inp.full_name inp.email (sessionPct quiz inp.answers) (uuid4str r) ::
          Event.certSheetCall (sessionCertRow cfg inp r) now ::
          ((if faults.certSheet then [Event.certSheetWarnMsg] else []) ++
            [Event.passedMsg,
             Event.downloadOffered ("Certificate_" ++ inp.full_name.replace " " "_" ++ ".pdf")]))
      else
        .failedStop (ev1 ++ [Event.notPassedMsg])

/-- An abstracted worksheet as `sheets_append_dict` sees it: the header
row (`row_values(1)`) and the data rows below it. -/
structure Worksheet where
  header : List String
  rows : List (List String)
deriving DecidableEq

/-- `sheets_append_dict` (`app.py` lines 61-90).  `ws0 = none` models
`gspread.WorksheetNotFound`: a fresh worksheet is created and its
header row written from the dict's keys.  A row dict is an
insertion-ordered association list with distinct keys (a Python
`dict`).  Note `header_set = set(h.strip() for h in header)` holds the
stripped header names, while `row_dict.get(col, "")` looks up the raw
header name. -/
def sheets_append_dict (ws0 : Option Worksheet) (row_dict : List (String × String)) :
    Worksheet :=
  let ws := match ws0 with
    | some w => w
    | none => { header := row_dict.map Prod.fst, rows := [] }
  let header := ws.header
  let headerSet := header.map String.trim
  let newCols := (row_dict.map Prod.fst).filter (fun k => !(headerSet.contains k))
  let header2 := header ++ newCols
  let rowVals := header2.map (fun col => ((row_dict.lookup col).getD ""))
  { header := header2, rows := ws.rows ++ [rowVals] }

/-- Discriminator: is this event the certificate-sheet writer call? -/
def Event.isCertSheetCall : Event → Bool
  | .certSheetCall _ _ => true
  | _ => false

/-- Discriminator: is this event the certificate PDF generation? -/
def Event.isPdfGenerated : Event → Bool
  | .pdfGenerated _ _ _ _ => true
  | _ => false

/-- Discriminator: is this event the download-button offer? -/
def Event.isDownloadOffered : Event → Bool
  | .downloadOffered _ => true
  | _ => false

/-- Discriminator: is this event the evaluation-sheet writer call? -/
def Event.isEvalSheetCall : Event → Bool
  | .evalSheetCall _ => true
  | _ => false

/-- Discriminator: is this event the local CSV writer call? -/
def Event.isCsvWriteCall : Event → Bool
  | .csvWriteCall _ _ => true
  | _ => false

/-- The Submission Record handed to the local CSV writer, when one
was. -/
def firstCsvRow (o : SubmitOutcome) : Option Row :=
  (o.events.filterMap (fun e => match e with
    | .csvWriteCall _ row => some row
    | _ => none)).head?

/-- A ten-item quiz used to instantiate the theorems below on concrete
data (answer key: always option "a"). -/
def wQuiz10 : List QuizItem :=
  List.replicate 10 { question := "q", options := ["a", "b"], answer := "a" }

/-- Ten selections of which exactly the first seven match `wQuiz10`'s
key. -/
def wSel7 : List String :=
  ["a", "a", "a", "a", "a", "a", "a", "b", "b", "b"]

/-- A complete, gate-passing set of form inputs, parameterized by the
post-test selections. -/
def wInputs (answers : AnswerSet) : FormInputs where
  full_name := "Jane Roe"
  email := "jane@example.org"
  job_title := "Nurse"
  institution_name := "General Hospital"
  location_city := "New York"
  location_state := "NY"
  location_country := "USA"
  role := "RN"
  member_status := "Member"
  contact_opt_in := true
  attendance := true
  ev_org := "Strongly agree"
  ev_ad := "Agree"
  ev_rel := "Strongly agree"
  ev_virt := "Agree"
  ev_obj := "Strongly agree"
  overall_prog := "Excellent"
  overall_rec := "Excellent"
  overall_zoom := "Good"
  lo_met := "Strongly agree"
  speaker_yap := "5"
  speaker_sagar := "5"
  speaker_velasquez := "5"
  speaker_pastoral := "4"
  speaker_santarina := "5"
  speaker_planillo := "5"
  speaker_florendo := "5"
  speaker_jomoc := "4"
  speaker_oliverio := "5"
  speaker_temprosa := "5"
  speaker_bedona := "5"
  speaker_agcon := "5"
  imp_knowledge := true
  imp_skills := true
  imp_competence := false
  imp_performance := false
  imp_outcomes := false
  fair_balanced := "Yes"
  commercial_support := "No"
  commercial_bias := "N/A"
  bias_explain := ""
  pc_values := true
  pc_joy := false
  pc_health := false
  pc_other := ""
  beneficial_topic := "Leadership"
  topics_interest := "line1\nline2"
  comments := "good\nsession"
  answers := answers

/-- C1.  For every quiz and every fully-populated Answer Set, the score
triple computed at `app.py` lines 307-309 is exactly
`(correct_count, N, 100 * correct_count / N)`, where `correct_count`
counts the items whose selected option string is exactly equal to the
item's correct-option string, and the percentage is the exact rational
(real-number division; the record's `"%.0f"` formatting is applied only
at presentation time by `buildRow`). -/
theorem claim_C1 (quiz : List QuizItem) (sel : List String)
    (hlen : sel.length = quiz.length) :
    score quiz (sel.map some) =
      (countCorrectSpec (quiz.map QuizItem.answer) sel, quiz.length,
        100 * (countCorrectSpec (quiz.map QuizItem.answer) sel : ℚ) / (quiz.length : ℚ)) := by
  unfold score
  rw [countCorrect_fully_populated quiz sel hlen]

/-- C1 witness: ten items, seven exact matches, percentage exactly 70. -/
theorem claim_C1_witness :
    wSel7.length = wQuiz10.length ∧
    score wQuiz10 (wSel7.map some) = (7, 10, 70) :=
  ⟨by decide, (claim_C1 wQuiz10 wSel7 (by decide)).trans (by with_unfolding_all decide)⟩

/-- C2.  The pass decision of `app.py` line 310 is
`passed = (score_pct >= PASSING_SCORE)`, with an inclusive boundary:
equality passes, and anything strictly below fails. -/
theorem claim_C2 (passing_score : ℤ) (score_pct : ℚ) :
    (passedDecision passing_score score_pct = true ↔ (passing_score : ℚ) ≤ score_pct) ∧
    (score_pct = (passing_score : ℚ) → passedDecision passing_score score_pct = true) ∧
    (score_pct < (passing_score : ℚ) → passedDecision passing_score score_pct = false) := by
  unfold passedDecision
  refine ⟨by simp, fun h => by simp [h], fun h => by simp [not_le.mpr h]⟩

/-- C2 witness: threshold 75 — a percentage of exactly 75 passes, and
70 (7 of 10 items) fails. -/
theorem claim_C2_witness :
    passedDecision 75 75 = true ∧ passedDecision 75 70 = false :=
  ⟨(claim_C2 75 75).2.1 (by norm_num), (claim_C2 75 70).2.2 (by norm_num)⟩

/-- C3.  If the pass decision is false, the trace contains no
certificate-sheet write, no PDF generation and no download offer; a
Certificate Record appears in the trace only when the session passed,
and at most once per submission (`app.py` lines 436-455). -/
theorem claim_C3 (cfg : Config) (quiz : List QuizItem) (now : String) (r : Nat)
    (inp : FormInputs) (faults : Faults) :
    (sessionPassed cfg quiz inp.answers = false →
      (runSession cfg quiz now r inp faults).events.countP Event.isCertSheetCall = 0 ∧
      (runSession cfg quiz now r inp faults).events.countP Event.isPdfGenerated = 0 ∧
      (runSession cfg quiz now r inp faults).events.countP Event.isDownloadOffered = 0) ∧
    (∀ c ca, Event.certSheetCall c ca ∈ (runSession cfg quiz now r inp faults).events →
      sessionPassed cfg quiz inp.answers = true) ∧
    (runSession cfg quiz now r inp faults).events.countP Event.isCertSheetCall ≤ 1 := by
  simp only [runSession]
  split_ifs <;>
    refine ⟨fun hfail => ?_, fun c ca hmem => ?_, ?_⟩ <;>
    simp_all [SubmitOutcome.events, List.countP_append, List.countP_cons,
      Event.isCertSheetCall, Event.isPdfGenerated, Event.isDownloadOffered]

/-- C3 witness: 7 of 10 correct at threshold 75 fails, and the trace
holds no certificate-sheet write. -/
theorem claim_C3_witness :
    (runSession defaultConfig wQuiz10 "2025-10-18T12:00" 0 (wInputs (wSel7.map some))
      ⟨false, false, false⟩).events.countP Event.isCertSheetCall = 0 :=
  ((claim_C3 defaultConfig wQuiz10 "2025-10-18T12:00" 0 (wInputs (wSel7.map some))
    ⟨false, false, false⟩).1 (by with_unfolding_all decide)).1

/-- C4.  A violated validation gate — empty name, empty email, the
attendance box not ticked (`app.py` lines 208-213), or any unanswered
quiz item (lines 302-304) — ends the session as a surfaced validation
failure before scoring, with an empty trace: no record of any kind is
produced or handed to any writer. -/
theorem claim_C4 (cfg : Config) (quiz : List QuizItem) (now : String) (r : Nat)
    (inp : FormInputs) (faults : Faults)
    (hbad : inp.full_name = "" ∨ inp.email = "" ∨ inp.attendance = false ∨
      ∃ a ∈ inp.answers, a = none) :
    (runSession cfg quiz now r inp faults = .identityInvalid ∨
      runSession cfg quiz now r inp faults = .quizIncomplete) ∧
    (runSession cfg quiz now r inp faults).events = [] := by
  unfold runSession
  by_cases h1 : inp.full_name = "" ∨ inp.email = "" ∨ inp.attendance = false
  · rw [if_pos h1]
    exact ⟨Or.inl rfl, rfl⟩
  · have h2 : inp.answers.any (fun a => a.isNone) = true := by
      rcases hbad with h | h | h | ⟨a, ha, rfl⟩
      · exact absurd (Or.inl h) h1
      · exact absurd (Or.inr (Or.inl h)) h1
      · exact absurd (Or.inr (Or.inr h)) h1
      · simp only [List.any_eq_true]
        exact ⟨none, ha, rfl⟩
    rw [if_neg h1, if_pos h2]
    exact ⟨Or.inr rfl, rfl⟩

/-- C4 witness: an all-unset Answer Set yields a validation failure and
an empty trace. -/
theorem claim_C4_witness :
    (runSession defaultConfig wQuiz10 "2025-10-18T12:00" 0
        (wInputs (List.replicate 10 none)) ⟨false, false, false⟩ = .identityInvalid ∨
      runSession defaultConfig wQuiz10 "2025-10-18T12:00" 0
        (wInputs (List.replicate 10 none)) ⟨false, false, false⟩ = .quizIncomplete) ∧
    (runSession defaultConfig wQuiz10 "2025-10-18T12:00" 0
      (wInputs (List.replicate 10 none)) ⟨false, false, false⟩).events = [] :=
  claim_C4 defaultConfig wQuiz10 "2025-10-18T12:00" 0 (wInputs (List.replicate 10 none))
    ⟨false, false, false⟩ (by decide)

/-- C6.  For every submission past the validation gate, the Submission
Record is handed to the local CSV writer as the very first action, and
(when that writer does not raise) to the evaluation-sheet writer right
after — before and independently of the pass/fail branch (`app.py`
lines 426-438). -/
theorem claim_C6 (cfg : Config) (quiz : List QuizItem) (now : String) (r : Nat)
    (inp : FormInputs) (faults : Faults)
    (hid : ¬(inp.full_name = "" ∨ inp.email = "" ∨ inp.attendance = false))
    (hans : inp.answers.any (fun a => a.isNone) = false) :
    (runSession cfg quiz now r inp faults).events.head? =
      some (Event.csvWriteCall "data/submissions.csv" (submissionRow cfg quiz now r inp)) ∧
    (faults.csv = false →
      ∃ rest, (runSession cfg quiz now r inp faults).events =
        Event.csvWriteCall "data/submissions.csv" (submissionRow cfg quiz now r inp) ::
        Event.evalSheetCall (evalEnrich (submissionRow cfg quiz now r inp)) :: rest) := by
  simp only [runSession]
  rw [if_neg hid, if_neg (by simp [hans])]
  split_ifs <;>
    refine ⟨?_, fun hcsvf => ?_⟩ <;>
    simp_all [SubmitOutcome.events]

/-- C6 witness: a failing submission (7/10 at threshold 75) still has
its Submission Record handed to both row-store writers first. -/
theorem claim_C6_witness :
    (runSession defaultConfig wQuiz10 "2025-10-18T12:00" 0 (wInputs (wSel7.map some))
      ⟨false, false, false⟩).events.head? =
      some (Event.csvWriteCall "data/submissions.csv"
        (submissionRow defaultConfig wQuiz10 "2025-10-18T12:00" 0 (wInputs (wSel7.map some)))) :=
  (claim_C6 defaultConfig wQuiz10 "2025-10-18T12:00" 0 (wInputs (wSel7.map some))
    ⟨false, false, false⟩ (by decide) (by decide)).1

/-- C5 counterexample.  A participant with all ten answers correct
(passed, threshold 75) whose local CSV row-store writer raises gets no
certificate at all: the unguarded `save_row_to_csv` call at `app.py`
line 426 aborts the run before the certificate branch, so a row-store
writer failure is fatal, contradicting the claim that any row-store
writer failure leaves the certificate downloadable. -/
theorem claim_C5_counterexample :
    sessionPassed defaultConfig wQuiz10 (List.replicate 10 (some "a")) = true ∧
    (runSession defaultConfig wQuiz10 "2025-10-18T12:00" 0
      (wInputs (List.replicate 10 (some "a")))
      ⟨true, false, false⟩).events.countP Event.isDownloadOffered = 0 ∧
    (runSession defaultConfig wQuiz10 "2025-10-18T12:00" 0
      (wInputs (List.replicate 10 (some "a")))
      ⟨true, false, false⟩).events.countP Event.isPdfGenerated = 0 ∧
    (runSession defaultConfig wQuiz10 "2025-10-18T12:00" 0
      (wInputs (List.replicate 10 (some "a")))
      ⟨true, false, false⟩).events.countP Event.isCertSheetCall = 0 := by
  with_unfolding_all decide

/-- C5 as amended.  Failures of the two guarded sheets writers
(`app.py` lines 429-433 and 452-455) are non-fatal: each writer is
invoked exactly once (no retry), its failure only adds an error /
warning message, and a passing participant is still offered the
direct certificate download — provided the unguarded local CSV write
does not raise. -/
theorem claim_C5_amended (cfg : Config) (quiz : List QuizItem) (now : String) (r : Nat)
    (inp : FormInputs) (faults : Faults)
    (hid : ¬(inp.full_name = "" ∨ inp.email = "" ∨ inp.attendance = false))
    (hans : inp.answers.any (fun a => a.isNone) = false)
    (hcsv : faults.csv = false)
    (hpass : sessionPassed cfg quiz inp.answers = true) :
    ∃ es, runSession cfg quiz now r inp faults = .completed es ∧
      Event.downloadOffered ("Certificate_" ++ inp.full_name.replace " " "_" ++ ".pdf") ∈ es ∧
      es.countP Event.isEvalSheetCall = 1 ∧
      es.countP Event.isCertSheetCall = 1 ∧
      (faults.evalSheet = true → Event.evalSheetErrMsg ∈ es) ∧
      (faults.certSheet = true → Event.certSheetWarnMsg ∈ es) := by
  simp only [runSession]
  rw [if_neg hid, if_neg (by simp [hans]), if_neg (by simp [hcsv]), if_pos hpass]
  refine ⟨_, rfl, ?_⟩
  split_ifs <;>
    simp_all [List.countP_append, List.countP_cons, Event.isEvalSheetCall,
      Event.isCertSheetCall]

/-- C5 amended witness: both sheets writers raising at once still ends
with the download offered, each writer called exactly once and the two
failure messages shown. -/
theorem claim_C5_amended_witness :
    Event.downloadOffered ("Certificate_" ++ "Jane Roe".replace " " "_" ++ ".pdf") ∈
      (runSession defaultConfig wQuiz10 "2025-10-18T12:00" 0
        (wInputs (List.replicate 10 (some "a"))) ⟨false, true, true⟩).events ∧
    (runSession defaultConfig wQuiz10 "2025-10-18T12:00" 0
      (wInputs (List.replicate 10 (some "a"))) ⟨false, true, true⟩).events.countP
        Event.isEvalSheetCall = 1 ∧
    (runSession defaultConfig wQuiz10 "2025-10-18T12:00" 0
      (wInputs (List.replicate 10 (some "a"))) ⟨false, true, true⟩).events.countP
        Event.isCertSheetCall = 1 ∧
    Event.evalSheetErrMsg ∈ (runSession defaultConfig wQuiz10 "2025-10-18T12:00" 0
      (wInputs (List.replicate 10 (some "a"))) ⟨false, true, true⟩).events ∧
    Event.certSheetWarnMsg ∈ (runSession defaultConfig wQuiz10 "2025-10-18T12:00" 0
      (wInputs (List.replicate 10 (some "a"))) ⟨false, true, true⟩).events := by
  obtain ⟨es, heq, hdl, hone, htwo, herr, hwarn⟩ :=
    claim_C5_amended defaultConfig wQuiz10 "2025-10-18T12:00" 0
      (wInputs (List.replicate 10 (some "a"))) ⟨false, true, true⟩
      (by decide) (by decide) rfl (by with_unfolding_all decide)
  have hev : (runSession defaultConfig wQuiz10 "2025-10-18T12:00" 0
      (wInputs (List.replicate 10 (some "a"))) ⟨false, true, true⟩).events = es := by
    rw [heq]
    rfl
  rw [hev]
  exact ⟨hdl, hone, htwo, herr rfl, hwarn rfl⟩

theorem BOOL_eq_yes (b : Bool) : BOOL b = "Yes" ↔ b = true := by
  cases b <;> simp [BOOL]

/-- Past the validation gate, the CSV writer call for the session's
Submission Record is always in the trace. -/
theorem csvWriteCall_mem (cfg : Config) (quiz : List QuizItem) (now : String) (r : Nat)
    (inp : FormInputs) (faults : Faults)
    (hid : ¬(inp.full_name = "" ∨ inp.email = "" ∨ inp.attendance = false))
    (hans : inp.answers.any (fun a => a.isNone) = false) :
    Event.csvWriteCall "data/submissions.csv" (submissionRow cfg quiz now r inp) ∈
      (runSession cfg quiz now r inp faults).events := by
  simp only [runSession]
  rw [if_neg hid, if_neg (by simp [hans])]
  split_ifs <;> simp [SubmitOutcome.events]

/-- In a passing session whose CSV write does not raise, the
certificate-sheet writer call for the session's Certificate Record is
in the trace. -/
theorem certSheetCall_mem (cfg : Config) (quiz : List QuizItem) (now : String) (r : Nat)
    (inp : FormInputs) (faults : Faults)
    (hid : ¬(inp.full_name = "" ∨ inp.email = "" ∨ inp.attendance = false))
    (hans : inp.answers.any (fun a => a.isNone) = false)
    (hcsv : faults.csv = false)
    (hpass : sessionPassed cfg quiz inp.answers = true) :
    Event.certSheetCall (sessionCertRow cfg inp r) now ∈
      (runSession cfg quiz now r inp faults).events := by
  simp only [runSession]
  rw [if_neg hid, if_neg (by simp [hans]), if_neg (by simp [hcsv]), if_pos hpass]
  split_ifs <;> simp [SubmitOutcome.events]

/-- C7.  Exactly one identifier is generated per submission —
`cert_id = str(uuid.uuid4())` at `app.py` line 334 — and that same
string is the `cert_id` of every record the session hands to a writer:
the CSV row, the evaluation-sheet row and, on pass, the Certificate
Record (the join key, lines 388 and 444-445).  Distinct sessions whose
random 128-bit draws differ on the non-forced bits (the spec's
uniform-random-token idealization) get distinct identifier strings. -/
theorem claim_C7 (cfg : Config) (quiz : List QuizItem) (now : String) (r : Nat)
    (inp : FormInputs) (faults : Faults) (r2 : Nat)
    (hdistinct : uuid4val r ≠ uuid4val r2) :
    (∀ p row, Event.csvWriteCall p row ∈ (runSession cfg quiz now r inp faults).events →
      row.cert_id = uuid4str r) ∧
    (∀ row, Event.evalSheetCall row ∈ (runSession cfg quiz now r inp faults).events →
      row.cert_id = uuid4str r) ∧
    (∀ c ca, Event.certSheetCall c ca ∈ (runSession cfg quiz now r inp faults).events →
      c.cert_id = uuid4str r) ∧
    uuid4str r ≠ uuid4str r2 := by
  simp only [runSession]
  split_ifs <;>
    refine ⟨fun p row hmem => ?_, fun row hmem => ?_, fun c ca hmem => ?_,
      uuid4str_injective hdistinct⟩ <;>
    simp_all [SubmitOutcome.events, submissionRow, buildRow, evalEnrich, sessionCertRow]

/-- C7 witness: in a passing session with draw 0, the Certificate
Record carries the session's identifier; the draw 1 session's
identifier differs.  -/
theorem claim_C7_witness :
    (sessionCertRow defaultConfig (wInputs (List.replicate 10 (some "a"))) 0).cert_id =
      uuid4str 0 ∧
    uuid4str 0 ≠ uuid4str 1 := by
  have h := claim_C7 defaultConfig wQuiz10 "2025-10-18T12:00" 0
    (wInputs (List.replicate 10 (some "a"))) ⟨false, false, false⟩ 1
    (by with_unfolding_all decide)
  exact ⟨h.2.2.1 _ "2025-10-18T12:00"
    (certSheetCall_mem defaultConfig wQuiz10 "2025-10-18T12:00" 0
      (wInputs (List.replicate 10 (some "a"))) ⟨false, false, false⟩
      (by decide) (by decide) rfl (by with_unfolding_all decide)), h.2.2.2⟩

/-- C8 counterexample.  `beneficial_topic` is a free-text field of the
Submission Record (`app.py` line 284: `st.text_input`, stored verbatim
at line 374), yet a value with an embedded line break is stored with
the line break intact — only `topics_interest` and `comments` get the
`replace("\n", " ")` treatment (lines 375-376), so the claim fails for
that field. -/
theorem claim_C8_counterexample :
    (firstCsvRow (runSession defaultConfig wQuiz10 "2025-10-18T12:00" 0
      { wInputs (List.replicate 10 (some "a")) with beneficial_topic := "line1\nline2" }
      ⟨false, false, false⟩)).map Row.beneficial_topic = some "line1\nline2" ∧
    "line1\nline2" ≠ "line1 line2" := by
  with_unfolding_all decide

/-- C8 as amended.  Of the Submission Record's free-text fields, only
the two multi-line ones — `topics_interest` and `comments` — have line
breaks replaced by single spaces before storage (the sheets writer
re-applies the same replacement); the single-line free-text fields
`beneficial_topic`, `bias_explain` and `pc_other` are stored
verbatim. -/
theorem claim_C8_amended (cfg : Config) (quiz : List QuizItem) (now : String) (r : Nat)
    (inp : FormInputs) (faults : Faults) :
    (∀ p row, Event.csvWriteCall p row ∈ (runSession cfg quiz now r inp faults).events →
      row.topics_interest = inp.topics_interest.replace "\n" " " ∧
      row.comments = inp.comments.replace "\n" " " ∧
      row.beneficial_topic = inp.beneficial_topic ∧
      row.bias_explain = inp.bias_explain ∧
      row.pc_other = inp.pc_other) ∧
    (∀ row, Event.evalSheetCall row ∈ (runSession cfg quiz now r inp faults).events →
      row.topics_interest = (inp.topics_interest.replace "\n" " ").replace "\n" " " ∧
      row.comments = (inp.comments.replace "\n" " ").replace "\n" " " ∧
      row.beneficial_topic = inp.beneficial_topic ∧
      row.bias_explain = inp.bias_explain ∧
      row.pc_other = inp.pc_other) := by
  simp only [runSession]
  split_ifs <;>
    refine ⟨fun p row hmem => ?_, fun row hmem => ?_⟩ <;>
    simp_all [SubmitOutcome.events, submissionRow, buildRow, evalEnrich]

/-- C8 amended witness: the stored CSV record of a session whose
`topics_interest` was `"line1\nline2"` holds the collapsed
`"line1 line2"`, while `beneficial_topic` is stored verbatim. -/
theorem claim_C8_amended_witness :
    (submissionRow defaultConfig wQuiz10 "2025-10-18T12:00" 0
      (wInputs (wSel7.map some))).topics_interest = "line1\nline2".replace "\n" " " ∧
    (submissionRow defaultConfig wQuiz10 "2025-10-18T12:00" 0
      (wInputs (wSel7.map some))).beneficial_topic = "Leadership" := by
  have h := (claim_C8_amended defaultConfig wQuiz10 "2025-10-18T12:00" 0
    (wInputs (wSel7.map some)) ⟨false, false, false⟩).1 "data/submissions.csv"
    (submissionRow defaultConfig wQuiz10 "2025-10-18T12:00" 0 (wInputs (wSel7.map some)))
    (csvWriteCall_mem defaultConfig wQuiz10 "2025-10-18T12:00" 0
      (wInputs (wSel7.map some)) ⟨false, false, false⟩ (by decide) (by decide))
  exact ⟨h.1, h.2.2.1⟩

/-- C10.  In every Submission Record the session produces, the
redundant score fields agree: `quiz_pct` and `score_pct` are the same
formatted string (`app.py` lines 381 and 385), and `quiz_passed` is
`"Yes"` exactly when the `passed` boolean is `true`, both derived from
the single threshold comparison of line 310. -/
theorem claim_C10 (cfg : Config) (quiz : List QuizItem) (now : String) (r : Nat)
    (inp : FormInputs) (faults : Faults) :
    (∀ p row, Event.csvWriteCall p row ∈ (runSession cfg quiz now r inp faults).events →
      row.quiz_pct = row.score_pct ∧
      (row.quiz_passed = "Yes" ↔ row.passed = true) ∧
      row.passed = sessionPassed cfg quiz inp.answers) ∧
    (∀ row, Event.evalSheetCall row ∈ (runSession cfg quiz now r inp faults).events →
      row.quiz_pct = row.score_pct ∧
      (row.quiz_passed = "Yes" ↔ row.passed = true) ∧
      row.passed = sessionPassed cfg quiz inp.answers) := by
  simp only [runSession]
  split_ifs <;>
    refine ⟨fun p row hmem => ?_, fun row hmem => ?_⟩ <;>
    simp_all [SubmitOutcome.events, submissionRow, buildRow, evalEnrich, BOOL_eq_yes]

/-- C10 witness: the failing 7/10 session's stored record has
`quiz_pct = score_pct`, `quiz_passed = "Yes"` iff `passed`, and
`passed` equal to the session's threshold comparison. -/
theorem claim_C10_witness :
    (submissionRow defaultConfig wQuiz10 "2025-10-18T12:00" 0
      (wInputs (wSel7.map some))).quiz_pct =
      (submissionRow defaultConfig wQuiz10 "2025-10-18T12:00" 0
        (wInputs (wSel7.map some))).score_pct ∧
    ((submissionRow defaultConfig wQuiz10 "2025-10-18T12:00" 0
        (wInputs (wSel7.map some))).quiz_passed = "Yes" ↔
      (submissionRow defaultConfig wQuiz10 "2025-10-18T12:00" 0
        (wInputs (wSel7.map some))).passed = true) ∧
    (submissionRow defaultConfig wQuiz10 "2025-10-18T12:00" 0
      (wInputs (wSel7.map some))).passed =
      sessionPassed defaultConfig wQuiz10 (wSel7.map some) :=
  (claim_C10 defaultConfig wQuiz10 "2025-10-18T12:00" 0
    (wInputs (wSel7.map some)) ⟨false, false, false⟩).1 "data/submissions.csv"
    (submissionRow defaultConfig wQuiz10 "2025-10-18T12:00" 0 (wInputs (wSel7.map some)))
    (csvWriteCall_mem defaultConfig wQuiz10 "2025-10-18T12:00" 0
      (wInputs (wSel7.map some)) ⟨false, false, false⟩ (by decide) (by decide))

/-- The behaviour claim C9 ascribes to `sheets_append_dict` at a
worksheet with existing header `H`: existing columns keep their order,
keys of the row dict absent from `H` (as exact strings) are appended to
the end of the header, and the appended row is aligned by exact
header-name lookup with `""` where the header name is not a key. -/
def appendDictClaim (H : List String) (rows : List (List String))
    (row_dict : List (String × String)) : Prop :=
  (sheets_append_dict (some ⟨H, rows⟩) row_dict).header =
      H ++ (row_dict.map Prod.fst).filter (fun k => !(H.contains k)) ∧
  (sheets_append_dict (some ⟨H, rows⟩) row_dict).rows =
      rows ++ [(sheets_append_dict (some ⟨H, rows⟩) row_dict).header.map
        (fun col => ((row_dict.lookup col).getD ""))]

/-- C9 counterexample.  With existing header `["a "]` (note the
trailing blank) and row dict `{"a": "v"}`, the key `"a"` is absent from
the header as an exact string, so the claim demands it be appended as
a new column; but `sheets_append_dict` tests membership against the
whitespace-stripped header names (`app.py` line 78), finds `"a"`
present, and appends no column — while the value lookup at line 89
uses the raw name `"a "` and stores `""`, losing the value. -/
theorem claim_C9_counterexample :
    ¬ appendDictClaim ["a "] [] [("a", "v")] := by
  unfold appendDictClaim
  with_unfolding_all decide

/-- C9 as amended.  Existing header columns keep their order and
positions; keys of the row dict whose (exact) name is absent from the
set of whitespace-STRIPPED existing header names are appended to the
end of the header; and the appended row's value at each column
position is the row dict's value for that exact column name, `""` when
the column name is not a key. -/
theorem claim_C9_amended (H : List String) (rows : List (List String))
    (rd : List (String × String)) :
    (sheets_append_dict (some ⟨H, rows⟩) rd).header.take H.length = H ∧
    (sheets_append_dict (some ⟨H, rows⟩) rd).header =
      H ++ (rd.map Prod.fst).filter (fun k => !((H.map String.trim).contains k)) ∧
    ∃ v, (sheets_append_dict (some ⟨H, rows⟩) rd).rows = rows ++ [v] ∧
      v.length = (sheets_append_dict (some ⟨H, rows⟩) rd).header.length ∧
      ∀ j, j < (sheets_append_dict (some ⟨H, rows⟩) rd).header.length →
        v.getD j "" =
          ((rd.lookup ((sheets_append_dict (some ⟨H, rows⟩) rd).header.getD j "")).getD "") := by
  have hheader : (sheets_append_dict (some ⟨H, rows⟩) rd).header =
      H ++ (rd.map Prod.fst).filter (fun k => !((H.map String.trim).contains k)) := rfl
  have hrows : (sheets_append_dict (some ⟨H, rows⟩) rd).rows =
      rows ++ [(sheets_append_dict (some ⟨H, rows⟩) rd).header.map
        (fun col => ((rd.lookup col).getD ""))] := rfl
  refine ⟨?_, hheader, _, hrows, by simp, ?_⟩
  · rw [hheader]
    exact List.take_left H _
  · intro j hj
    have hj' : j < ((sheets_append_dict (some ⟨H, rows⟩) rd).header.map
        (fun col => ((rd.lookup col).getD ""))).length := by simpa using hj
    rw [List.getD_eq_getElem?_getD, List.getD_eq_getElem?_getD,
      List.getElem?_eq_getElem hj', List.getElem?_eq_getElem hj,
      List.getElem_map]
    rfl

/-- C9 amended witness: header `["a ", "b"]` with dict keys `a`, `c` —
`a` matches the stripped name `"a"` and is not re-appended, `c` is
appended; the row aligns by raw names (so the `"a "` column gets
`""`). -/
theorem claim_C9_amended_witness :
    (sheets_append_dict (some ⟨["a ", "b"], []⟩) [("a", "1"), ("c", "2")]).header =
      ["a ", "b"] ++ (([("a", "1"), ("c", "2")].map Prod.fst).filter
        (fun k => !((["a ", "b"].map String.trim).contains k))) :=
  (claim_C9_amended ["a ", "b"] [] [("a", "1"), ("c", "2")]).2.1
